import Mathlib

/-!
Verification of the disaster-recovery backup engine of
`kamailio_disaster_recovery.py` (class `KamailioDisasterRecovery`).

The Python functions are shallowly embedded as pure Lean functions.
External effects (filesystem existence checks, tar archive writes,
`gpg` subprocess exit status, `aws s3 cp`, `systemctl restart`) are
modelled as explicit boolean outcome fields of an environment record,
and the observable effects of a run (files left in the backup store,
the archive's contents, the value returned or the exception raised)
are collected in a result record.  Exceptions are modelled with
`Except`: `.error` means the Python function raised to its caller.
-/

namespace KamailioDR

/-- `os.path.basename`: the characters after the last `/` of the path
(the last `/`-separated segment; empty for a path ending in `/`). -/
def basename (p : String) : String :=
  String.mk (p.toList.foldl (fun acc c => if c = '/' then [] else acc ++ [c]) [])

/-- `backup_path.endswith(".gpg")`: the last four characters of the path
are `.gpg`. -/
def hasGpgExt (p : String) : Bool :=
  match p.toList.reverse with
  | 'g' :: 'p' :: 'g' :: '.' :: _ => true
  | _ => false

/-- `backup_path[:-4]`: the path with its last four characters dropped. -/
def dropRight4 (p : String) : String :=
  String.mk (p.toList.take (p.toList.length - 4))

/-! ## Configuration loading (`load_recovery_config`, `_validate_config`) -/

/-- The state of the configuration file on disk, as `load_recovery_config`
can observe it: absent (`FileNotFoundError`), present but not JSON
(`json.JSONDecodeError`), or a parsed JSON object with the given
top-level keys. -/
inductive ConfigFile
  | missing
  | malformed
  | valid (keys : List String)
deriving DecidableEq, Repr

/-- The configuration `load_recovery_config` returns: either the
built-in default set from `_get_default_config`, or the parsed file. -/
inductive LoadedConfig
  | defaults
  | fromFile (keys : List String)
deriving DecidableEq, Repr

/-- The `required_keys` list of `_validate_config`. -/
def requiredKeys : List String :=
  ["backup_directory", "backup_retention_days", "backup_type", "components_to_backup"]

/-- `_validate_config`: raises `ValueError` naming the first required key
absent from the config, returns normally otherwise. -/
def validateConfig (keys : List String) : Except String Unit :=
  match requiredKeys.find? (fun k => !(keys.contains k)) with
  | some k => .error ("Missing required configuration key: " ++ k)
  | none => .ok ()

/-- `load_recovery_config`: reads and parses the file, validates it, and
falls back to defaults on `FileNotFoundError` or `json.JSONDecodeError`.
A `ValueError` from `_validate_config` is not caught and propagates. -/
def loadRecoveryConfig : ConfigFile → Except String LoadedConfig
  | .missing => .ok .defaults
  | .malformed => .ok .defaults
  | .valid keys =>
    match validateConfig keys with
    | .ok _ => .ok (.fromFile keys)
    | .error e => .error e

/-! ## Backup rotation (`rotate_backups`) -/

/-- One entry of the backup store as `rotate_backups` sees it: its name,
its last-modified timestamp, and whether `os.path.getmtime` and
`os.remove` would succeed on it. -/
structure RotEntry where
  name : String
  mtime : Int
  statOk : Bool
  removeOk : Bool
deriving DecidableEq, Repr

/-- The cutoff `datetime.now() - timedelta(days=retention_days)`. -/
def rotationCutoff (now retentionDays : Int) : Int :=
  now - retentionDays

/-- `rotate_backups`: iterates over the store entries in order, removing
each entry whose modification time is strictly below the cutoff.  The
whole loop sits inside one `try`: the first entry whose stat or removal
raises sends control to the `except` handler, which logs and returns,
so entries already removed stay removed and later entries are never
visited.  Returns the list of entries actually removed. -/
def rotateBackups (cutoff : Int) : List RotEntry → List RotEntry
  | [] => []
  | e :: rest =>
    if e.statOk then
      if e.mtime < cutoff then
        if e.removeOk then e :: rotateBackups cutoff rest
        else []
      else rotateBackups cutoff rest
    else []

/-! ## Backup creation (`create_backup`, `_encrypt_backup`,
`_upload_remote_backup`) -/

/-- The environment of one `create_backup` run: the configured component
list, which paths exist (`os.path.exists`), the relevant config flags,
and the outcome of each external step.  `archiveOk` is whether the tar
archive is opened and written to completion; when it is `false`,
`leftoverOnFail` says whether the failed write left a partial file at
the archive path (disk full) or no file at all (open denied).
`gpgExitOk` is the exit status of `gpg -c`. -/
structure CreateEnv where
  components : List String
  compExists : String → Bool
  encryptionEnabled : Bool
  remoteEnabled : Bool
  archiveOk : Bool
  leftoverOnFail : Bool
  gpgExitOk : Bool

/-- The observable outcome of `create_backup`: the value returned or the
exception raised, the files left in the backup store, the arcnames
added to the archive, the components that produced a missing-component
warning, and the path handed to `_upload_remote_backup` (if any). -/
structure CreateResult where
  ret : Except String String
  store : List String
  archiveContents : List String
  warnings : List String
  uploadedPath : Option String
deriving Repr

/-- `create_backup` at archive path `backupPath`: writes the archive
(adding each existing component under its basename, logging a warning
for each missing one), then — on success — optionally encrypts via
`_encrypt_backup` (which on gpg success creates `backupPath ++ ".gpg"`
and deletes the plaintext, and on gpg failure logs and leaves the
plaintext in place), optionally uploads via
`_upload_remote_backup backup_path`, and returns `backup_path`.  Any
exception during the archive write is logged and re-raised with no
cleanup of a partially written file. -/
def createBackup (env : CreateEnv) (backupPath : String) : CreateResult :=
  if env.archiveOk then
    let contents := (env.components.filter env.compExists).map basename
    let warns := env.components.filter (fun c => !env.compExists c)
    let store :=
      if env.encryptionEnabled then
        if env.gpgExitOk then [backupPath ++ ".gpg"] else [backupPath]
      else [backupPath]
    let uploaded := if env.remoteEnabled then some backupPath else none
    { ret := .ok backupPath, store := store, archiveContents := contents,
      warnings := warns, uploadedPath := uploaded }
  else
    { ret := .error "Backup creation failed", archiveContents := [],
      store := if env.leftoverOnFail then [backupPath] else [],
      warnings := [], uploadedPath := none }

/-! ## Restore (`restore_backup`) -/

/-- The outcome of each external step of one `restore_backup` run:
the exit status of `gpg -d` (only consulted when the artifact name
ends in `.gpg`), whether `tarfile.extractall` succeeds, and the exit
status of `systemctl restart kamailio`. -/
structure RestoreEnv where
  decryptExitOk : Bool
  extractOk : Bool
  restartExitOk : Bool

/-- The observable outcome of `restore_backup`: the return (or raised
exception), the decrypted sibling file created in the backup store (if
any), whether the archive was unpacked onto the filesystem, whether the
service restart was attempted, and the artifact files left in the
backup store. -/
structure RestoreResult where
  ret : Except String Unit
  decrypted : Option String
  extracted : Bool
  restartAttempted : Bool
  storeFiles : List String
deriving Repr

/-- The tail of `restore_backup` after the optional decryption step:
unpack the plaintext archive, then restart the service; any exception
is logged and re-raised.  `store` and `dec` carry the store files and
decrypted sibling produced by the decryption step. -/
def restoreFrom (store : List String) (dec : Option String)
    (env : RestoreEnv) : RestoreResult :=
  if env.extractOk then
    if env.restartExitOk then
      { ret := .ok (), decrypted := dec, extracted := true,
        restartAttempted := true, storeFiles := store }
    else
      { ret := .error "Backup restoration failed", decrypted := dec,
        extracted := true, restartAttempted := true, storeFiles := store }
  else
    { ret := .error "Backup restoration failed", decrypted := dec,
      extracted := false, restartAttempted := false, storeFiles := store }

/-- `restore_backup`: if the artifact name ends in `.gpg`, run `gpg -d`
writing the plaintext to the path with the last four characters
dropped; a failed decryption raises inside the `try`, is logged and
re-raised before any unpacking.  Then unpack and restart the service.
Nothing is ever deleted from the backup store. -/
def restoreBackup (path : String) (env : RestoreEnv) : RestoreResult :=
  if hasGpgExt path then
    if env.decryptExitOk then
      restoreFrom [path, dropRight4 path] (some (dropRight4 path)) env
    else
      { ret := .error "Backup restoration failed", decrypted := none,
        extracted := false, restartAttempted := false, storeFiles := [path] }
  else
    restoreFrom [path] none env

/-! ## Helper lemmas -/

/-- When every entry can be statted and removed, the rotation pass is
exactly a filter by the strict cutoff comparison. -/
theorem rotateBackups_all_ok (cutoff : Int) (entries : List RotEntry)
    (h : ∀ e ∈ entries, e.statOk = true ∧ e.removeOk = true) :
    rotateBackups cutoff entries
      = entries.filter (fun e => decide (e.mtime < cutoff)) := by
  induction entries with
  | nil => rfl
  | cons e rest ih =>
    have he := h e (List.mem_cons_self e rest)
    have hrest : ∀ x ∈ rest, x.statOk = true ∧ x.removeOk = true :=
      fun x hx => h x (List.mem_cons_of_mem e hx)
    simp only [rotateBackups, he.1, he.2, if_true, List.filter_cons]
    by_cases hm : e.mtime < cutoff
    · simp [hm, ih hrest]
    · simp [hm, ih hrest]

/-- A failing entry (stat raises, or it is due for removal and the
removal raises) stops the pass: the result is exactly the removals from
the prefix before it, and no later entry is ever removed. -/
theorem rotateBackups_stops_at_failure (cutoff : Int) (pre : List RotEntry)
    (e : RotEntry) (rest : List RotEntry)
    (hpre : ∀ x ∈ pre, x.statOk = true ∧ x.removeOk = true)
    (he : e.statOk = false ∨ (e.mtime < cutoff ∧ e.removeOk = false)) :
    rotateBackups cutoff (pre ++ e :: rest)
      = pre.filter (fun x => decide (x.mtime < cutoff)) := by
  induction pre with
  | nil =>
    simp only [List.nil_append, List.filter_nil]
    rcases he with h1 | ⟨h2, h3⟩
    · simp [rotateBackups, h1]
    · rcases hs : e.statOk with _ | _
      · simp [rotateBackups, hs]
      · simp [rotateBackups, hs, h2, h3]
  | cons a pre ih =>
    have ha := hpre a (List.mem_cons_self a pre)
    have hpre2 : ∀ x ∈ pre, x.statOk = true ∧ x.removeOk = true :=
      fun x hx => hpre x (List.mem_cons_of_mem a hx)
    simp only [List.cons_append, rotateBackups, ha.1, ha.2, if_true,
      List.filter_cons]
    by_cases hm : a.mtime < cutoff
    · simp [hm, ih hpre2]
    · simp [hm, ih hpre2]

/-! ## Claim theorems -/

/-- C3: when no per-entry failure occurs, the retention pass removes an
entry of the store if and only if its last-modified timestamp is
strictly older than `now - retentionDays`; an entry whose timestamp
equals exactly `now - retentionDays` is retained. -/
theorem c3_retention_strict_cutoff (now retentionDays : Int)
    (entries : List RotEntry)
    (h : ∀ e ∈ entries, e.statOk = true ∧ e.removeOk = true) :
    (∀ e, e ∈ rotateBackups (rotationCutoff now retentionDays) entries ↔
        e ∈ entries ∧ e.mtime < now - retentionDays) ∧
      (∀ e ∈ entries, e.mtime = now - retentionDays →
        e ∉ rotateBackups (rotationCutoff now retentionDays) entries) := by
  have hrot := rotateBackups_all_ok (rotationCutoff now retentionDays) entries h
  constructor
  · intro e
    rw [hrot, List.mem_filter]
    simp [rotationCutoff]
  · intro e he hb hmem
    rw [hrot, List.mem_filter] at hmem
    rw [rotationCutoff] at hmem
    have := of_decide_eq_true hmem.2
    omega

/-- C3 witness: a store of three entries aged strictly-older, exactly at,
and newer than the cutoff; only the strictly older one is removed. -/
theorem c3_retention_strict_cutoff_witness :
    (⟨"old", 5, true, true⟩ : RotEntry) ∈
        rotateBackups (rotationCutoff 40 30)
          [⟨"old", 5, true, true⟩, ⟨"edge", 10, true, true⟩,
           ⟨"new", 20, true, true⟩] ∧
      (⟨"edge", 10, true, true⟩ : RotEntry) ∉
        rotateBackups (rotationCutoff 40 30)
          [⟨"old", 5, true, true⟩, ⟨"edge", 10, true, true⟩,
           ⟨"new", 20, true, true⟩] := by
  have h := c3_retention_strict_cutoff 40 30
    [⟨"old", 5, true, true⟩, ⟨"edge", 10, true, true⟩,
     ⟨"new", 20, true, true⟩] (by decide)
  exact ⟨(h.1 _).mpr (by decide),
    h.2 ⟨"edge", 10, true, true⟩ (by decide) (by decide)⟩

/-- C4 counterexample: with cutoff `10`, a store whose first entry fails
to stat and whose second entry is eligible (timestamp `0 < 10`, stat and
removal both fine) removes nothing at all — the remaining eligible entry
is not deleted, contradicting the claim that a per-entry failure never
aborts the rest of the pass. -/
theorem c4_counterexample :
    rotateBackups 10 [⟨"a", 0, false, true⟩, ⟨"b", 0, true, true⟩] = [] ∧
      ((0 : Int) < 10) := by
  constructor
  · rfl
  · decide

/-- C4 amended: a per-entry failure during rotation does not propagate an
exception (the pass returns the removals performed so far), but it does
abort the remainder of the scan: entries before the failing one are
processed normally, and no entry at or after the failing one is
removed. -/
theorem c4_failure_aborts_rest (cutoff : Int) (pre : List RotEntry)
    (e : RotEntry) (rest : List RotEntry)
    (hpre : ∀ x ∈ pre, x.statOk = true ∧ x.removeOk = true)
    (he : e.statOk = false ∨ (e.mtime < cutoff ∧ e.removeOk = false)) :
    rotateBackups cutoff (pre ++ e :: rest)
        = pre.filter (fun x => decide (x.mtime < cutoff)) ∧
      ∀ x ∈ e :: rest, x ∉ rotateBackups cutoff (pre ++ e :: rest) ∨ x ∈ pre := by
  have h := rotateBackups_stops_at_failure cutoff pre e rest hpre he
  refine ⟨h, fun x _ => ?_⟩
  by_cases hx : x ∈ pre
  · exact Or.inr hx
  · refine Or.inl fun hmem => hx ?_
    rw [h, List.mem_filter] at hmem
    exact hmem.1

/-- C4 amended witness: at the concrete counterexample store the pass
removes nothing and the eligible entry after the failing one is not in
the removal list. -/
theorem c4_failure_aborts_rest_witness :
    rotateBackups 10 [⟨"a", 0, false, true⟩, ⟨"b", 0, true, true⟩] = [] ∧
      ((⟨"b", 0, true, true⟩ : RotEntry) ∉
          rotateBackups 10 [⟨"a", 0, false, true⟩, ⟨"b", 0, true, true⟩] ∨
        (⟨"b", 0, true, true⟩ : RotEntry) ∈ ([] : List RotEntry)) := by
  have h := c4_failure_aborts_rest 10 [] ⟨"a", 0, false, true⟩
    [⟨"b", 0, true, true⟩] (by simp) (Or.inl rfl)
  exact ⟨h.1, h.2 ⟨"b", 0, true, true⟩ (by decide)⟩

/-- C9 counterexample: a configuration file that is well-formed JSON but
an empty object is neither missing nor malformed, yet
`load_recovery_config` does not return a configuration: the
`ValueError` raised by `_validate_config` propagates to the caller. -/
theorem c9_counterexample :
    loadRecoveryConfig (.valid [])
      = .error "Missing required configuration key: backup_directory" := by
  rfl

/-- C9 amended: a missing configuration file yields the built-in
defaults and a malformed (non-JSON) file yields the same defaults with
a logged error, and a well-formed file containing every required key
loads successfully; but a well-formed JSON file missing one of the four
required keys makes `load_recovery_config` raise a `ValueError` to the
caller instead of returning a configuration. -/
theorem c9_load_config (cf : ConfigFile) :
    (loadRecoveryConfig .missing = .ok .defaults) ∧
      (loadRecoveryConfig .malformed = .ok .defaults) ∧
      (∀ keys, (∀ k ∈ requiredKeys, keys.contains k = true) →
        loadRecoveryConfig (.valid keys) = .ok (.fromFile keys)) ∧
      (∀ keys, (∃ k ∈ requiredKeys, keys.contains k = false) →
        (loadRecoveryConfig (.valid keys)).isOk = false) ∧
      ((loadRecoveryConfig cf).isOk = false →
        ∃ keys, cf = .valid keys) := by
  refine ⟨rfl, rfl, ?_, ?_, ?_⟩
  · intro keys hk
    have hfind : requiredKeys.find? (fun k => !(keys.contains k)) = none := by
      rw [List.find?_eq_none]
      intro k hkmem
      have h2 := hk k hkmem
      simp only [h2]
      decide
    simp only [loadRecoveryConfig, validateConfig, hfind]
  · intro keys hkex
    obtain ⟨k, hkmem, hkabs⟩ := hkex
    rcases hsome : requiredKeys.find? (fun k => !(keys.contains k)) with _ | k0
    · exfalso
      rw [List.find?_eq_none] at hsome
      have h2 := hsome k hkmem
      simp only [hkabs] at h2
      exact h2 rfl
    · simp only [loadRecoveryConfig, validateConfig, hsome]
      rfl
  · intro hbad
    cases cf with
    | missing => exact Bool.noConfusion hbad
    | malformed => exact Bool.noConfusion hbad
    | valid keys => exact ⟨keys, rfl⟩

/-- C9 amended witness: at concrete inputs, a file with all four
required keys loads, and a file with only `backup_type` fails with the
validation error. -/
theorem c9_load_config_witness :
    loadRecoveryConfig (.valid ["backup_directory", "backup_retention_days",
        "backup_type", "components_to_backup"])
      = .ok (.fromFile ["backup_directory", "backup_retention_days",
        "backup_type", "components_to_backup"]) ∧
      (loadRecoveryConfig (.valid ["backup_type"])).isOk = false := by
  have h := c9_load_config .missing
  exact ⟨h.2.2.1 _ (by decide), h.2.2.2.1 _ ⟨"backup_directory", by decide, by decide⟩⟩

/-- C1 counterexample: a run whose archive write fails after a partial
file has been written (disk full) raises the error to the caller, yet
the partially written archive file is still present in the backup
store — contradicting the claim that any partially written file is
removed before the error is surfaced. -/
theorem c1_counterexample :
    (createBackup ⟨["/etc/kamailio"], fun _ => true, false, false,
        false, true, true⟩ "b.tar.gz").ret.isOk = false ∧
      "b.tar.gz" ∈ (createBackup ⟨["/etc/kamailio"], fun _ => true, false,
        false, false, true, true⟩ "b.tar.gz").store := by
  exact ⟨rfl, by decide⟩

/-- C1 amended: when the backup archive cannot be opened or written, the
run fails and the error is surfaced to the caller, but no cleanup is
performed: whenever the failed write left a partially written archive
file, that file remains in the backup store. -/
theorem c1_archive_failure_no_cleanup (env : CreateEnv) (p : String)
    (h : env.archiveOk = false) :
    (createBackup env p).ret.isOk = false ∧
      (createBackup env p).store
        = (if env.leftoverOnFail then [p] else []) := by
  obtain ⟨comps, ce, enc, rem, arc, lo, gp⟩ := env
  subst h
  exact ⟨rfl, rfl⟩

/-- C1 amended witness: the concrete failing run of the counterexample
environment fails and leaves exactly the partial file behind. -/
theorem c1_archive_failure_no_cleanup_witness :
    (createBackup ⟨["/etc/kamailio"], fun _ => true, false, false,
        false, true, true⟩ "b.tar.gz").ret.isOk = false ∧
      (createBackup ⟨["/etc/kamailio"], fun _ => true, false, false,
        false, true, true⟩ "b.tar.gz").store
        = (if (true : Bool) then ["b.tar.gz"] else []) :=
  c1_archive_failure_no_cleanup ⟨["/etc/kamailio"], fun _ => true, false,
    false, false, true, true⟩ "b.tar.gz" rfl

/-- C2, evaluated at the failing input (encryption and remote enabled,
every step succeeding, archive path `b.tar.gz`): the encrypted sibling
created is `b.tar.gz.gpg` — not a `.enc` path — and it is the only file
left in the store, yet the run hands the deleted plaintext path
`b.tar.gz` to the uploader and returns that same deleted path, which is
no longer in the store. -/
theorem c2_code_eval :
    (createBackup ⟨["/etc/kamailio"], fun _ => true, true, true,
        true, false, true⟩ "b.tar.gz").store = ["b.tar.gz.gpg"] ∧
      (createBackup ⟨["/etc/kamailio"], fun _ => true, true, true,
        true, false, true⟩ "b.tar.gz").uploadedPath = some "b.tar.gz" ∧
      (createBackup ⟨["/etc/kamailio"], fun _ => true, true, true,
        true, false, true⟩ "b.tar.gz").ret = .ok "b.tar.gz" ∧
      "b.tar.gz" ∉ (createBackup ⟨["/etc/kamailio"], fun _ => true, true,
        true, true, false, true⟩ "b.tar.gz").store := by
  exact ⟨rfl, rfl, rfl, by decide⟩

/-- C5: when the archive write succeeds, encryption is enabled, and the
gpg subprocess fails, the plaintext archive is preserved in the store
and the run still returns the plaintext path successfully — encryption
failure is absorbed, never fatal to the backup run. -/
theorem c5_encryption_failure_nonfatal (env : CreateEnv) (p : String)
    (harc : env.archiveOk = true) (henc : env.encryptionEnabled = true)
    (hgpg : env.gpgExitOk = false) :
    (createBackup env p).ret = .ok p ∧
      (createBackup env p).store = [p] := by
  obtain ⟨comps, ce, enc, rem, arc, lo, gp⟩ := env
  subst harc; subst henc; subst hgpg
  exact ⟨rfl, rfl⟩

/-- C5 witness: a concrete run with a failing gpg step returns the
plaintext path and keeps the plaintext artifact. -/
theorem c5_encryption_failure_nonfatal_witness :
    (createBackup ⟨["/etc/kamailio"], fun _ => true, true, false,
        true, false, false⟩ "b.tar.gz").ret = .ok "b.tar.gz" ∧
      (createBackup ⟨["/etc/kamailio"], fun _ => true, true, false,
        true, false, false⟩ "b.tar.gz").store = ["b.tar.gz"] :=
  c5_encryption_failure_nonfatal ⟨["/etc/kamailio"], fun _ => true, true,
    false, true, false, false⟩ "b.tar.gz" rfl rfl rfl

/-- C8: whenever the archive write itself succeeds, a backup run over
any configured component list succeeds, leaves exactly one artifact in
the store, archives exactly the components that exist — each under its
base name — and records one warning per missing component; a missing
component never aborts the run. -/
theorem c8_components_archived (env : CreateEnv) (p : String)
    (harc : env.archiveOk = true) :
    (createBackup env p).ret = .ok p ∧
      (createBackup env p).store.length = 1 ∧
      (createBackup env p).archiveContents
        = (env.components.filter env.compExists).map basename ∧
      (createBackup env p).warnings
        = env.components.filter (fun c => !env.compExists c) := by
  obtain ⟨comps, ce, enc, rem, arc, lo, gp⟩ := env
  subst harc
  refine ⟨rfl, ?_, rfl, rfl⟩
  cases enc with
  | false => rfl
  | true => cases gp <;> rfl

/-- C8 witness: a concrete run over a two-component list with one
missing component succeeds, stores one artifact, archives the existing
component under its base name, and warns about the missing one. -/
theorem c8_components_archived_witness :
    (createBackup ⟨["/etc/kamailio", "/var/lib/kamailio"],
        fun c => c == "/etc/kamailio", false, false, true, false, true⟩
        "b.tar.gz").ret = .ok "b.tar.gz" ∧
      (createBackup ⟨["/etc/kamailio", "/var/lib/kamailio"],
        fun c => c == "/etc/kamailio", false, false, true, false, true⟩
        "b.tar.gz").store.length = 1 ∧
      (createBackup ⟨["/etc/kamailio", "/var/lib/kamailio"],
        fun c => c == "/etc/kamailio", false, false, true, false, true⟩
        "b.tar.gz").archiveContents = ["kamailio"] ∧
      (createBackup ⟨["/etc/kamailio", "/var/lib/kamailio"],
        fun c => c == "/etc/kamailio", false, false, true, false, true⟩
        "b.tar.gz").warnings = ["/var/lib/kamailio"] := by
  have h := c8_components_archived ⟨["/etc/kamailio", "/var/lib/kamailio"],
    fun c => c == "/etc/kamailio", false, false, true, false, true⟩
    "b.tar.gz" rfl
  exact ⟨h.1, h.2.1, h.2.2.1.trans (by decide), h.2.2.2.trans (by decide)⟩

/-- C6 counterexample: restoring an unencrypted artifact whose unpack
succeeds but whose service restart fails does not complete: the raised
error propagates to the caller of `restore_backup`, contradicting the
claim that no error is propagated. -/
theorem c6_counterexample :
    (restoreBackup "b.tar.gz" ⟨true, true, false⟩).ret.isOk = false ∧
      (restoreBackup "b.tar.gz" ⟨true, true, false⟩).extracted = true := by
  exact ⟨rfl, rfl⟩

/-- C6 amended: when the service restart after unpacking fails, the
restart failure is logged and the already-applied file changes are
kept (the unpack is not rolled back), but the restore does not complete
successfully: the error is re-raised to the caller of restore. -/
theorem c6_restart_failure_fatal (path : String) (env : RestoreEnv)
    (hdec : env.decryptExitOk = true) (hext : env.extractOk = true)
    (hres : env.restartExitOk = false) :
    (restoreBackup path env).ret.isOk = false ∧
      (restoreBackup path env).extracted = true ∧
      (restoreBackup path env).restartAttempted = true := by
  obtain ⟨d, e, r⟩ := env
  subst hdec; subst hext; subst hres
  cases h : hasGpgExt path with
  | true =>
    simp only [restoreBackup, h]
    exact ⟨rfl, rfl, rfl⟩
  | false =>
    simp only [restoreBackup, h, Bool.false_eq_true, if_false]
    exact ⟨rfl, rfl, rfl⟩

/-- C6 amended witness: the concrete run of the counterexample — file
changes applied and kept, restart attempted, error propagated. -/
theorem c6_restart_failure_fatal_witness :
    (restoreBackup "b.tar.gz" ⟨true, true, false⟩).ret.isOk = false ∧
      (restoreBackup "b.tar.gz" ⟨true, true, false⟩).extracted = true ∧
      (restoreBackup "b.tar.gz" ⟨true, true, false⟩).restartAttempted = true :=
  c6_restart_failure_fatal "b.tar.gz" ⟨true, true, false⟩ rfl rfl rfl

/-- C7: restoring an artifact whose name ends in the encrypted suffix
`.gpg` when the decryption subprocess fails (wrong passphrase) raises
the error to the caller and aborts before any unpacking: nothing is
extracted onto the filesystem, no decrypted sibling is produced, and no
service restart is attempted. -/
theorem c7_decrypt_failure_aborts (path : String) (env : RestoreEnv)
    (henc : hasGpgExt path = true) (hdec : env.decryptExitOk = false) :
    (restoreBackup path env).ret.isOk = false ∧
      (restoreBackup path env).extracted = false ∧
      (restoreBackup path env).restartAttempted = false ∧
      (restoreBackup path env).decrypted = none ∧
      (restoreBackup path env).storeFiles = [path] := by
  obtain ⟨d, e, r⟩ := env
  subst hdec
  simp only [restoreBackup, henc, if_true, Bool.false_eq_true, if_false]
  refine ⟨?_, ?_, ?_, ?_, ?_⟩ <;> first | rfl | trivial

/-- C7 witness: a concrete encrypted artifact with a failing decryption
aborts before unpacking, leaving only the encrypted file. -/
theorem c7_decrypt_failure_aborts_witness :
    (restoreBackup "b.tar.gz.gpg" ⟨false, true, true⟩).ret.isOk = false ∧
      (restoreBackup "b.tar.gz.gpg" ⟨false, true, true⟩).extracted = false ∧
      (restoreBackup "b.tar.gz.gpg" ⟨false, true, true⟩).restartAttempted
        = false ∧
      (restoreBackup "b.tar.gz.gpg" ⟨false, true, true⟩).decrypted = none ∧
      (restoreBackup "b.tar.gz.gpg" ⟨false, true, true⟩).storeFiles
        = ["b.tar.gz.gpg"] :=
  c7_decrypt_failure_aborts "b.tar.gz.gpg" ⟨false, true, true⟩ rfl rfl

/-- C10: a completed restore of an artifact named with the encrypted
suffix `.gpg` whose decryption, unpack and restart all succeed creates
the decrypted plaintext archive as a sibling file (the path with the
suffix dropped) and deletes nothing: afterwards both the encrypted
original and the plaintext copy remain in the backup store. -/
theorem c10_decrypted_copy_remains (path : String) (env : RestoreEnv)
    (henc : hasGpgExt path = true) (hdec : env.decryptExitOk = true)
    (hext : env.extractOk = true) (hres : env.restartExitOk = true) :
    (restoreBackup path env).ret = .ok () ∧
      (restoreBackup path env).decrypted = some (dropRight4 path) ∧
      (restoreBackup path env).storeFiles = [path, dropRight4 path] := by
  obtain ⟨d, e, r⟩ := env
  subst hdec; subst hext; subst hres
  simp only [restoreBackup, henc, if_true, restoreFrom]
  refine ⟨?_, ?_, ?_⟩ <;> first | rfl | trivial

/-- C10 witness: restoring `b.tar.gz.gpg` with all steps succeeding
leaves both `b.tar.gz.gpg` and the decrypted `b.tar.gz` on disk. -/
theorem c10_decrypted_copy_remains_witness :
    (restoreBackup "b.tar.gz.gpg" ⟨true, true, true⟩).ret = .ok () ∧
      (restoreBackup "b.tar.gz.gpg" ⟨true, true, true⟩).decrypted
        = some "b.tar.gz" ∧
      (restoreBackup "b.tar.gz.gpg" ⟨true, true, true⟩).storeFiles
        = ["b.tar.gz.gpg", "b.tar.gz"] := by
  have h := c10_decrypted_copy_remains "b.tar.gz.gpg" ⟨true, true, true⟩
    rfl rfl rfl rfl
  exact ⟨h.1, h.2.1.trans (by decide), h.2.2.trans (by decide)⟩

end KamailioDR
